import Mathlib

/-!
Verification of the HospitAI decision core against its specification.

The definitions below are a shallow embedding of the Python sources
`src/backend/predictor_rulebased.py` and `src/backend/ai_agent.py`.
Numbers are modelled as exact rationals (ℚ): Python float arithmetic is
idealised as exact rational arithmetic, and Python's `round(x, d)`
(round half to even on the scaled value) is modelled by `roundTo` below.
Division by zero yields 0 in ℚ where numpy would yield ±inf/NaN; no
claim settled here depends on the value a zero denominator produces,
only on whether the computation fails (it does not).
Display-only artefacts (datetime timestamps, the reasoning-trace
strings) are outside the embedding; numeric interpolation inside
message strings uses `toString` on ℚ where Python formats floats.
-/

set_option maxRecDepth 40000
set_option maxHeartbeats 1000000

namespace HospitAI

/-- Python `int(x)` on a number: truncation toward zero. -/
def pyInt (q : ℚ) : ℤ := if 0 ≤ q then ⌊q⌋ else -⌊-q⌋

/-- Round to the nearest integer, ties to the even neighbour
(Python's `round` on an exactly-represented value). -/
def roundHalfEven (x : ℚ) : ℤ :=
  let f := ⌊x⌋
  let frac := x - (f : ℚ)
  if frac < 1/2 then f
  else if 1/2 < frac then f + 1
  else if f % 2 = 0 then f else f + 1

/-- Python `round(x, d)`: round half to even at the d-th decimal place. -/
def roundTo (d : ℕ) (x : ℚ) : ℚ := (roundHalfEven (x * 10 ^ d) : ℚ) / 10 ^ d

/-! ## predictor_rulebased.py -/

/-- One row of the input DataFrame of `predict_surge`
(the columns that function reads). -/
structure SurgeRecord where
  flu_cases : ℚ
  pollution : ℚ
  occupied_beds : ℚ
  total_beds : ℚ
  occupied_icu : ℚ
  total_icu_beds : ℚ
  ventilators_used : ℚ
  total_ventilators : ℚ
  staff_on_duty : ℚ
deriving DecidableEq

/-- Python `Series.rolling(window=7, min_periods=1).mean()` at row `i`:
the mean of the last at most 7 values up to and including row `i`. -/
def rollingMean7 (xs : List ℚ) (i : ℕ) : ℚ :=
  let w := (xs.take (i + 1)).drop (i + 1 - 7)
  w.sum / (w.length : ℚ)

def FLU_THRESHOLD : ℚ := 50
def POLLUTION_THRESHOLD : ℚ := 100
def BED_OCCUPANCY_THRESHOLD : ℚ := 0.80
def ICU_OCCUPANCY_THRESHOLD : ℚ := 0.75
def VENTILATOR_THRESHOLD : ℚ := 0.70
def STAFF_RATIO_MIN : ℚ := 1.0

/-- One row of the DataFrame returned by `predict_surge` (the added
columns).  The six `risk_*` flags are 0/1 ints in the source
(`.astype(int)`); they are carried as `Bool` here and summed through
`if _ then 1 else 0`, exactly as the source sums the six columns. -/
structure SurgeRow where
  flu_avg_7d : ℚ
  pollution_avg_7d : ℚ
  bed_occupancy_ratio : ℚ
  icu_occupancy_ratio : ℚ
  ventilator_usage_ratio : ℚ
  staff_ratio : ℚ
  risk_flu : Bool
  risk_pollution : Bool
  risk_beds : Bool
  risk_icu : Bool
  risk_ventilators : Bool
  risk_staff : Bool
  risk_score : ℕ
  surge_risk : Bool
  risk_level : String
deriving DecidableEq

/-- Pandas `pd.cut(score, bins=[-1,0,1,2,4,6], labels=[...])` for a score in [0,6]. -/
def riskLevelLabel (score : ℕ) : String :=
  if score ≤ 0 then "Normal"
  else if score ≤ 1 then "Low"
  else if score ≤ 2 then "Moderate"
  else if score ≤ 4 then "High"
  else "Critical"

/-- Row `i` of the result of `predict_surge`, where `r` is row `i` of the
input.  Mirrors the column formulas of `predict_surge` one row at a time. -/
def surgeRow (records : List SurgeRecord) (i : ℕ) (r : SurgeRecord) : SurgeRow :=
  let flu_avg_7d := roundTo 1 (rollingMean7 (records.map SurgeRecord.flu_cases) i)
  let pollution_avg_7d := roundTo 1 (rollingMean7 (records.map SurgeRecord.pollution) i)
  let bed_occupancy_ratio := roundTo 3 (r.occupied_beds / r.total_beds)
  let icu_occupancy_ratio := roundTo 3 (r.occupied_icu / r.total_icu_beds)
  let ventilator_usage_ratio := roundTo 3 (r.ventilators_used / r.total_ventilators)
  let staff_ratio := roundTo 3 (r.staff_on_duty / r.occupied_beds)
  let risk_flu := FLU_THRESHOLD < flu_avg_7d
  let risk_pollution := POLLUTION_THRESHOLD < pollution_avg_7d
  let risk_beds := BED_OCCUPANCY_THRESHOLD < bed_occupancy_ratio
  let risk_icu := ICU_OCCUPANCY_THRESHOLD < icu_occupancy_ratio
  let risk_ventilators := VENTILATOR_THRESHOLD < ventilator_usage_ratio
  let risk_staff := staff_ratio < STAFF_RATIO_MIN
  let risk_score :=
    (if risk_flu then 1 else 0) + (if risk_pollution then 1 else 0) +
    (if risk_beds then 1 else 0) + (if risk_icu then 1 else 0) +
    (if risk_ventilators then 1 else 0) + (if risk_staff then 1 else 0)
  { flu_avg_7d := flu_avg_7d
    pollution_avg_7d := pollution_avg_7d
    bed_occupancy_ratio := bed_occupancy_ratio
    icu_occupancy_ratio := icu_occupancy_ratio
    ventilator_usage_ratio := ventilator_usage_ratio
    staff_ratio := staff_ratio
    risk_flu := risk_flu
    risk_pollution := risk_pollution
    risk_beds := risk_beds
    risk_icu := risk_icu
    risk_ventilators := risk_ventilators
    risk_staff := risk_staff
    risk_score := risk_score
    surge_risk := 2 ≤ risk_score
    risk_level := riskLevelLabel risk_score }

/-- Function `predict_surge`: the added columns, one `SurgeRow` per input row. -/
def predict_surge (records : List SurgeRecord) : List SurgeRow :=
  records.enum.map (fun p => surgeRow records p.1 p.2)

lemma score_eq_count (p1 p2 p3 p4 p5 p6 : Prop)
    [Decidable p1] [Decidable p2] [Decidable p3] [Decidable p4] [Decidable p5] [Decidable p6] :
    ((if p1 then 1 else 0) + (if p2 then 1 else 0) + (if p3 then 1 else 0) +
     (if p4 then 1 else 0) + (if p5 then 1 else 0) + (if p6 then 1 else 0) : ℕ)
      = ([decide p1, decide p2, decide p3, decide p4, decide p5, decide p6].count true) ∧
    ((if p1 then 1 else 0) + (if p2 then 1 else 0) + (if p3 then 1 else 0) +
     (if p4 then 1 else 0) + (if p5 then 1 else 0) + (if p6 then 1 else 0) : ℕ) ≤ 6 := by
  by_cases h1 : p1 <;> by_cases h2 : p2 <;> by_cases h3 : p3 <;>
    by_cases h4 : p4 <;> by_cases h5 : p5 <;> by_cases h6 : p6 <;>
    simp [h1, h2, h3, h4, h5, h6]

lemma surgeRow_score (records : List SurgeRecord) (i : ℕ) (r : SurgeRecord) :
    (surgeRow records i r).risk_score =
      ([(surgeRow records i r).risk_flu, (surgeRow records i r).risk_pollution,
        (surgeRow records i r).risk_beds, (surgeRow records i r).risk_icu,
        (surgeRow records i r).risk_ventilators, (surgeRow records i r).risk_staff].count true) ∧
    (surgeRow records i r).risk_score ≤ 6 := by
  simp only [surgeRow]
  exact score_eq_count _ _ _ _ _ _

lemma mem_of_getLast? {α : Type} {l : List α} {a : α} (h : l.getLast? = some a) : a ∈ l := by
  induction l with
  | nil => simp at h
  | cons x xs ih =>
    cases hx : xs.getLast? with
    | none =>
      have : xs = [] := List.getLast?_eq_none_iff.mp hx
      subst this
      simp_all
    | some b =>
      rw [List.getLast?_cons, hx] at h
      simp only [Option.getD_some, Option.some.injEq] at h
      subst h
      exact List.mem_cons_of_mem _ (ih hx)

/-- C1: for every input series, the risk score of the latest snapshot (the
last row of `predict_surge`) equals the number of true flags among the six
threshold checks (flu, pollution, beds, ICU, ventilators, staff), and is
therefore at most 6 (hence in [0,6], the score being a natural number). -/
theorem risk_score_counts_flags (records : List SurgeRecord) (row : SurgeRow)
    (h : (predict_surge records).getLast? = some row) :
    row.risk_score =
      ([row.risk_flu, row.risk_pollution, row.risk_beds, row.risk_icu,
        row.risk_ventilators, row.risk_staff].count true) ∧
    row.risk_score ≤ 6 := by
  have hm : row ∈ predict_surge records := mem_of_getLast? h
  simp only [predict_surge, List.mem_map] at hm
  obtain ⟨⟨i, r⟩, _, rfl⟩ := hm
  exact surgeRow_score records i r

/-- A one-row input series used to instantiate C1's theorem. -/
def c1Records : List SurgeRecord :=
  [{ flu_cases := 60, pollution := 120, occupied_beds := 90, total_beds := 100,
     occupied_icu := 8, total_icu_beds := 10, ventilators_used := 8,
     total_ventilators := 10, staff_on_duty := 45 }]

/-- The last row `predict_surge` produces on `c1Records`. -/
def c1Row : SurgeRow :=
  { flu_avg_7d := 60, pollution_avg_7d := 120, bed_occupancy_ratio := 9/10,
    icu_occupancy_ratio := 4/5, ventilator_usage_ratio := 4/5, staff_ratio := 1/2,
    risk_flu := true, risk_pollution := true, risk_beds := true, risk_icu := true,
    risk_ventilators := true, risk_staff := true, risk_score := 6,
    surge_risk := true, risk_level := "Critical" }

/-- Witness for C1 at a concrete one-row series (all six flags true). -/
theorem risk_score_counts_flags_witness :
    (predict_surge c1Records).getLast? = some c1Row ∧
    (c1Row.risk_score =
      ([c1Row.risk_flu, c1Row.risk_pollution, c1Row.risk_beds, c1Row.risk_icu,
        c1Row.risk_ventilators, c1Row.risk_staff].count true) ∧
     c1Row.risk_score ≤ 6) :=
  ⟨by with_unfolding_all decide,
   risk_score_counts_flags c1Records c1Row (by with_unfolding_all decide)⟩

/-! ## ai_agent.py — data model

`AgentRecord` is one row of the daily-series DataFrame as `HospitAIAgent`
reads it: the capacity and staffing fields (and `flu_cases`, which
`_calculate_trends` indexes directly) are accessed with `latest[...]` and
so are required; `pollution`, `temperature` and `risk_score` are read with
`latest.get(key, default)` and so may be absent.  The per-object
`datetime.now()` timestamps of the source are display-only and outside the
embedding. -/
structure AgentRecord where
  total_beds : ℚ
  occupied_beds : ℚ
  total_icu_beds : ℚ
  occupied_icu : ℚ
  total_ventilators : ℚ
  ventilators_used : ℚ
  staff_on_duty : ℚ
  flu_cases : ℚ
  pollution : Option ℚ := none
  temperature : Option ℚ := none
  risk_score : Option ℚ := none
deriving DecidableEq

/-- Enum `AlertLevel` of ai_agent.py. -/
inductive AlertLevel where
  | info
  | warning
  | critical
  | emergency
deriving DecidableEq, BEq

/-- The `.value` string of each `AlertLevel` member. -/
def AlertLevel.value : AlertLevel → String
  | .info => "info"
  | .warning => "warning"
  | .critical => "critical"
  | .emergency => "emergency"

/-- Enum `ActionType` of ai_agent.py. -/
inductive ActionType where
  | alert
  | resource_request
  | staff_call
  | diversion
  | supply_order
  | protocol_activation
deriving DecidableEq, BEq

/-- The `.value` string of each `ActionType` member. -/
def ActionType.value : ActionType → String
  | .alert => "alert"
  | .resource_request => "resource_request"
  | .staff_call => "staff_call"
  | .diversion => "diversion"
  | .supply_order => "supply_order"
  | .protocol_activation => "protocol_activation"

/-- A value of an action's `details` dict (a string, a number, or a list
of recipient/department names). -/
inductive Dval where
  | s (v : String)
  | n (v : ℚ)
  | ls (v : List String)
deriving DecidableEq

/-- The `AgentAction` dataclass.  Field defaults mirror the dataclass
defaults (`auto_executed=False`, `requires_approval=True`, `details={}`,
`outcome=None`); the `timestamp` default factory is outside the embedding. -/
structure AgentAction where
  action_type : ActionType
  description : String
  priority : ℕ
  auto_executed : Bool := false
  requires_approval : Bool := true
  details : List (String × Dval) := []
  outcome : Option String := none
deriving DecidableEq

/-- The `metrics` dict built by `perceive` (ints via Python `int(...)`). -/
structure Metrics where
  bed_occupancy : ℚ
  icu_occupancy : ℚ
  ventilator_usage : ℚ
  staff_ratio : ℚ
  total_beds : ℤ
  occupied_beds : ℤ
  available_beds : ℤ
  total_icu : ℤ
  occupied_icu : ℤ
  available_icu : ℤ
deriving DecidableEq

/-- The `trends` dict built by `_calculate_trends`. -/
structure Trends where
  bed_change_1d : ℤ
  bed_change_3d : ℤ
  bed_change_7d : ℤ
  icu_change_3d : ℤ
  flu_change_3d : ℤ
  direction : String
  velocity : String
deriving DecidableEq

/-- The `env_factors` dict built by `perceive`. -/
structure EnvFactors where
  pollution_aqi : ℚ
  temperature : ℚ
  flu_cases : ℤ
deriving DecidableEq

/-- The dict `self.current_situation` as built by `perceive` (the ISO timestamp
string is display-only and outside the embedding). -/
structure Situation where
  metrics : Metrics
  trends : Trends
  environment : EnvFactors
  risk_score : ℤ
deriving DecidableEq

/-- An `Issue` dict produced by `reason`.  The `message` f-strings render
numbers with `toString` on ℚ/ℤ where Python formats floats. -/
structure Issue where
  type_ : String
  resource : String
  severity : AlertLevel
  value : ℚ
  message : String
deriving DecidableEq

/-- One entry of the module-level `AGENT_LOG` (timestamp omitted;
`approved` is absent (`none`) for auto-executed entries). -/
structure AuditEntry where
  action : String
  type_ : String
  auto : Bool
  approved : Option Bool := none
deriving DecidableEq

/-! ## ai_agent.py — SnapshotBuilder (`perceive`, `_calculate_trends`) -/

/-- Pandas `df[col].iloc[-k]` (k ≥ 1) under `f`, defined (and only used) when the
series has at least `k` rows; the `getD 0` default can fire only outside
that guard. -/
def ilocFromEnd (df : List AgentRecord) (k : ℕ) (f : AgentRecord → ℚ) : ℚ :=
  ((df.get? (df.length - k)).map f).getD 0

/-- Method `_calculate_trends`: deltas of the last record against earlier records,
guarded by the series length, then the direction/velocity policy on the
3-day bed delta. -/
def calculateTrends (df : List AgentRecord) : Trends :=
  let bed_change_1d : ℤ :=
    if 2 ≤ df.length then
      pyInt (ilocFromEnd df 1 AgentRecord.occupied_beds - ilocFromEnd df 2 AgentRecord.occupied_beds)
    else 0
  let bed_change_3d : ℤ :=
    if 3 ≤ df.length then
      pyInt (ilocFromEnd df 1 AgentRecord.occupied_beds - ilocFromEnd df 3 AgentRecord.occupied_beds)
    else 0
  let icu_change_3d : ℤ :=
    if 3 ≤ df.length then
      pyInt (ilocFromEnd df 1 AgentRecord.occupied_icu - ilocFromEnd df 3 AgentRecord.occupied_icu)
    else 0
  let flu_change_3d : ℤ :=
    if 3 ≤ df.length then
      pyInt (ilocFromEnd df 1 AgentRecord.flu_cases - ilocFromEnd df 3 AgentRecord.flu_cases)
    else 0
  let bed_change_7d : ℤ :=
    if 7 ≤ df.length then
      pyInt (ilocFromEnd df 1 AgentRecord.occupied_beds - ilocFromEnd df 7 AgentRecord.occupied_beds)
    else 0
  let direction :=
    if 10 < bed_change_3d then "increasing"
    else if bed_change_3d < -10 then "decreasing"
    else "stable"
  let velocity :=
    if 10 < bed_change_3d then (if 20 < bed_change_3d then "rapid" else "moderate")
    else if bed_change_3d < -10 then (if bed_change_3d < -20 then "rapid" else "moderate")
    else "slow"
  { bed_change_1d := bed_change_1d, bed_change_3d := bed_change_3d,
    bed_change_7d := bed_change_7d, icu_change_3d := icu_change_3d,
    flu_change_3d := flu_change_3d, direction := direction, velocity := velocity }

/-- Method `perceive`: `none` exactly when `df.iloc[-1]` fails (empty series);
otherwise the situation dict.  The occupancy percentages are stored
rounded (`round(x, 1)`, staff ratio `round(x, 3)`); no validation of the
inputs is performed anywhere, and `pollution`/`temperature`/`risk_score`
fall back to `0`/`20`/`0` via `.get`. -/
def perceive (df : List AgentRecord) : Option Situation :=
  match df.getLast? with
  | none => none
  | some latest =>
    let bed_occupancy := latest.occupied_beds / latest.total_beds * 100
    let icu_occupancy := latest.occupied_icu / latest.total_icu_beds * 100
    let vent_usage := latest.ventilators_used / latest.total_ventilators * 100
    let staff_ratio := latest.staff_on_duty / max latest.occupied_beds 1
    some
      { metrics :=
          { bed_occupancy := roundTo 1 bed_occupancy
            icu_occupancy := roundTo 1 icu_occupancy
            ventilator_usage := roundTo 1 vent_usage
            staff_ratio := roundTo 3 staff_ratio
            total_beds := pyInt latest.total_beds
            occupied_beds := pyInt latest.occupied_beds
            available_beds := pyInt (latest.total_beds - latest.occupied_beds)
            total_icu := pyInt latest.total_icu_beds
            occupied_icu := pyInt latest.occupied_icu
            available_icu := pyInt (latest.total_icu_beds - latest.occupied_icu) }
        trends := calculateTrends df
        environment :=
          { pollution_aqi := latest.pollution.getD 0
            temperature := latest.temperature.getD 20
            flu_cases := pyInt latest.flu_cases }
        risk_score := pyInt (latest.risk_score.getD 0) }

/-- The same situation with the four ratio metrics left at full precision:
the reference point for §4.1's words "rounded to one decimal place for
display, retained at full precision internally". -/
def situationUnrounded (df : List AgentRecord) : Option Situation :=
  match df.getLast? with
  | none => none
  | some latest =>
    let bed_occupancy := latest.occupied_beds / latest.total_beds * 100
    let icu_occupancy := latest.occupied_icu / latest.total_icu_beds * 100
    let vent_usage := latest.ventilators_used / latest.total_ventilators * 100
    let staff_ratio := latest.staff_on_duty / max latest.occupied_beds 1
    some
      { metrics :=
          { bed_occupancy := bed_occupancy
            icu_occupancy := icu_occupancy
            ventilator_usage := vent_usage
            staff_ratio := staff_ratio
            total_beds := pyInt latest.total_beds
            occupied_beds := pyInt latest.occupied_beds
            available_beds := pyInt (latest.total_beds - latest.occupied_beds)
            total_icu := pyInt latest.total_icu_beds
            occupied_icu := pyInt latest.occupied_icu
            available_icu := pyInt (latest.total_icu_beds - latest.occupied_icu) }
        trends := calculateTrends df
        environment :=
          { pollution_aqi := latest.pollution.getD 0
            temperature := latest.temperature.getD 20
            flu_cases := pyInt latest.flu_cases }
        risk_score := pyInt (latest.risk_score.getD 0) }

/-- Rounding of the four ratio metrics exactly as `perceive` stores them. -/
def roundSituation (s : Situation) : Situation :=
  { s with metrics :=
      { s.metrics with
        bed_occupancy := roundTo 1 s.metrics.bed_occupancy
        icu_occupancy := roundTo 1 s.metrics.icu_occupancy
        ventilator_usage := roundTo 1 s.metrics.ventilator_usage
        staff_ratio := roundTo 3 s.metrics.staff_ratio } }

/-! ## ai_agent.py — IssueDetector (`reason`) -/

/-- The dict `THRESHOLDS` of `HospitAIAgent` (the dict, one definition per key). -/
def bed_occupancy_warning : ℚ := 75
def bed_occupancy_critical : ℚ := 90
def icu_occupancy_warning : ℚ := 70
def icu_occupancy_critical : ℚ := 85
def ventilator_warning : ℚ := 60
def ventilator_critical : ℚ := 80
def staff_ratio_min : ℚ := 0.15
def flu_surge_threshold : ℤ := 50
def aqi_warning : ℚ := 100
def aqi_critical : ℚ := 150

/-- Method `reason`: the issue list, one append block per check, in source order
(beds, ICU, ventilators, staff, AQI, flu, trend). -/
def reason (s : Situation) : List Issue :=
  (if bed_occupancy_critical ≤ s.metrics.bed_occupancy then
    [{ type_ := "capacity_critical", resource := "beds", severity := .emergency,
       value := s.metrics.bed_occupancy,
       message := "CRITICAL: Bed occupancy at " ++ toString s.metrics.bed_occupancy
         ++ "% - immediate action required" }]
  else if bed_occupancy_warning ≤ s.metrics.bed_occupancy then
    [{ type_ := "capacity_warning", resource := "beds", severity := .warning,
       value := s.metrics.bed_occupancy,
       message := "WARNING: Bed occupancy at " ++ toString s.metrics.bed_occupancy
         ++ "% - prepare contingency" }]
  else []) ++
  (if icu_occupancy_critical ≤ s.metrics.icu_occupancy then
    [{ type_ := "capacity_critical", resource := "icu", severity := .emergency,
       value := s.metrics.icu_occupancy,
       message := "CRITICAL: ICU at " ++ toString s.metrics.icu_occupancy ++ "% capacity" }]
  else if icu_occupancy_warning ≤ s.metrics.icu_occupancy then
    [{ type_ := "capacity_warning", resource := "icu", severity := .warning,
       value := s.metrics.icu_occupancy,
       message := "WARNING: ICU at " ++ toString s.metrics.icu_occupancy ++ "% - monitor closely" }]
  else []) ++
  (if ventilator_critical ≤ s.metrics.ventilator_usage then
    [{ type_ := "equipment_critical", resource := "ventilators", severity := .critical,
       value := s.metrics.ventilator_usage,
       message := "CRITICAL: Ventilator usage at " ++ toString s.metrics.ventilator_usage ++ "%" }]
  else []) ++
  (if s.metrics.staff_ratio < staff_ratio_min then
    [{ type_ := "staffing_shortage", resource := "staff", severity := .critical,
       value := s.metrics.staff_ratio,
       message := "CRITICAL: Staff ratio " ++ toString s.metrics.staff_ratio
         ++ " below minimum " ++ toString staff_ratio_min }]
  else []) ++
  (if aqi_critical ≤ s.environment.pollution_aqi then
    [{ type_ := "environmental_alert", resource := "air_quality", severity := .warning,
       value := s.environment.pollution_aqi,
       message := "High AQI (" ++ toString s.environment.pollution_aqi
         ++ ") - expect respiratory admissions increase" }]
  else []) ++
  (if flu_surge_threshold ≤ s.environment.flu_cases then
    [{ type_ := "disease_surge", resource := "flu", severity := .warning,
       value := (s.environment.flu_cases : ℚ),
       message := "Flu surge detected: " ++ toString s.environment.flu_cases ++ " cases" }]
  else []) ++
  (if s.trends.direction = "increasing" ∧ s.trends.velocity = "rapid" then
    [{ type_ := "trend_alert", resource := "capacity", severity := .warning,
       value := (s.trends.bed_change_3d : ℚ),
       message := "Rapid increase in admissions: +" ++ toString s.trends.bed_change_3d
         ++ " beds in 3 days" }]
  else [])

/-! ## ai_agent.py — ActionPlanner (`plan`)

`actions.sort(key=lambda x: x.priority, reverse=True)` is Python's stable
sort under a reversed comparison: priorities descending, equal-priority
elements keeping their original relative order.  `insertDesc`/`sortDesc`
below are that function on lists. -/

/-- Stable insertion of `a` into a priority-descending list: `a` is placed
before the first element whose priority is not ≥ `a`'s (so after every
earlier element of equal priority already in the list). -/
def insertDesc (a : AgentAction) : List AgentAction → List AgentAction
  | [] => [a]
  | b :: l => if a.priority ≥ b.priority then a :: b :: l else b :: insertDesc a l

/-- Stable descending sort by priority. -/
def sortDesc (l : List AgentAction) : List AgentAction := l.foldr insertDesc []

/-- The actions `plan` appends for one issue: the source's
`elif` dispatch on (issue type, resource), in source order. -/
def actionsFor (mode : Bool) (issue : Issue) : List AgentAction :=
  if issue.type_ = "capacity_critical" ∧ issue.resource = "beds" then
    [{ action_type := .diversion, description := "Activate ambulance diversion protocol",
       priority := 5, requires_approval := !mode,
       details := [("reason", .s issue.message), ("duration_hours", .n 4)] },
     { action_type := .protocol_activation,
       description := "Activate surge capacity protocol - open overflow areas",
       priority := 5, requires_approval := true,
       details := [("protocol", .s "SURGE_LEVEL_3")] }]
  else if issue.type_ = "capacity_warning" ∧ issue.resource = "beds" then
    [{ action_type := .alert, description := "Alert bed management team - high occupancy",
       priority := 3, requires_approval := false, auto_executed := mode,
       details := [("recipients", .ls ["bed_management", "nursing_supervisor"])] },
     { action_type := .resource_request,
       description := "Request discharge planning review for eligible patients",
       priority := 3, requires_approval := false,
       details := [("target", .s "case_management")] }]
  else if issue.type_ = "capacity_critical" ∧ issue.resource = "icu" then
    [{ action_type := .alert, description := "URGENT: ICU at critical capacity",
       priority := 5, requires_approval := false, auto_executed := true,
       details := [("recipients", .ls ["icu_director", "cmo", "bed_management"])] },
     { action_type := .resource_request, description := "Request ICU step-down evaluations",
       priority := 4, requires_approval := false,
       details := [("target", .s "icu_team")] }]
  else if issue.type_ = "staffing_shortage" then
    [{ action_type := .staff_call, description := "Initiate emergency staff callback",
       priority := 4, requires_approval := !mode,
       details := [("type", .s "callback"), ("departments", .ls ["nursing", "respiratory"])] },
     { action_type := .alert, description := "Alert staffing office - critical shortage",
       priority := 4, requires_approval := false, auto_executed := true,
       details := [("recipients", .ls ["staffing_office", "nursing_director"])] }]
  else if issue.type_ = "equipment_critical" then
    [{ action_type := .supply_order,
       description := "Request emergency ventilator allocation from regional pool",
       priority := 5, requires_approval := true,
       details := [("equipment", .s "ventilators"), ("quantity", .n 5)] }]
  else if issue.type_ = "environmental_alert" then
    [{ action_type := .alert, description := "Environmental alert: " ++ issue.message,
       priority := 2, requires_approval := false, auto_executed := true,
       details := [("type", .s "environmental"), ("aqi", .n issue.value)] }]
  else if issue.type_ = "disease_surge" then
    [{ action_type := .protocol_activation, description := "Consider activating flu surge protocol",
       priority := 3, requires_approval := true,
       details := [("protocol", .s "FLU_SURGE"), ("cases", .n issue.value)] }]
  else if issue.type_ = "trend_alert" then
    [{ action_type := .alert, description := "Trend alert: Rapid admission increase detected",
       priority := 3, requires_approval := false, auto_executed := true,
       details := [("trend", .n issue.value)] }]
  else []

/-- The planner's action list before the final sort (the loop over issues,
appending each issue's actions in order). -/
def planActions (mode : Bool) (issues : List Issue) : List AgentAction :=
  issues.flatMap (actionsFor mode)

/-- Method `plan`: all templates instantiated, then sorted by priority descending
with the stable sort. -/
def plan (mode : Bool) (issues : List Issue) : List AgentAction :=
  sortDesc (planActions mode issues)

lemma mem_insertDesc {x a : AgentAction} {l : List AgentAction} :
    x ∈ insertDesc a l ↔ x = a ∨ x ∈ l := by
  induction l with
  | nil => simp [insertDesc]
  | cons b l ih =>
    by_cases h : a.priority ≥ b.priority <;> simp [insertDesc, h, ih] <;> tauto

lemma mem_sortDesc {x : AgentAction} {l : List AgentAction} :
    x ∈ sortDesc l ↔ x ∈ l := by
  induction l with
  | nil => simp [sortDesc]
  | cons b l ih =>
    simp only [sortDesc, List.foldr_cons] at ih ⊢
    rw [mem_insertDesc, ih]
    simp

lemma pairwise_insertDesc {a : AgentAction} {l : List AgentAction}
    (h : l.Pairwise (fun x y => y.priority ≤ x.priority)) :
    (insertDesc a l).Pairwise (fun x y => y.priority ≤ x.priority) := by
  induction l with
  | nil => simp [insertDesc]
  | cons b l ih =>
    rcases List.pairwise_cons.mp h with ⟨hb, hl⟩
    by_cases hab : a.priority ≥ b.priority
    · rw [insertDesc, if_pos hab]
      refine List.pairwise_cons.mpr ⟨?_, h⟩
      intro x hx
      rcases List.mem_cons.mp hx with rfl | hx
      · exact hab
      · exact le_trans (hb x hx) hab
    · rw [insertDesc, if_neg hab]
      refine List.pairwise_cons.mpr ⟨?_, ih hl⟩
      intro x hx
      rcases mem_insertDesc.mp hx with rfl | hx
      · omega
      · exact hb x hx

lemma pairwise_sortDesc (l : List AgentAction) :
    (sortDesc l).Pairwise (fun x y => y.priority ≤ x.priority) := by
  induction l with
  | nil => simp [sortDesc]
  | cons b l ih =>
    simp only [sortDesc, List.foldr_cons] at ih ⊢
    exact pairwise_insertDesc ih

lemma filter_insertDesc (p : ℕ) (a : AgentAction) (l : List AgentAction) :
    (insertDesc a l).filter (fun x => x.priority == p) =
      (a :: l).filter (fun x => x.priority == p) := by
  induction l with
  | nil => simp [insertDesc]
  | cons b l ih =>
    by_cases hab : a.priority ≥ b.priority
    · rw [insertDesc, if_pos hab]
    · rw [insertDesc, if_neg hab]
      by_cases hbp : b.priority = p
      · have hap : ¬ a.priority = p := by omega
        simp [List.filter_cons, hbp, hap] at ih ⊢
        simp [ih]
      · simp [List.filter_cons, hbp] at ih ⊢
        exact ih

lemma filter_sortDesc (p : ℕ) (l : List AgentAction) :
    (sortDesc l).filter (fun x => x.priority == p) = l.filter (fun x => x.priority == p) := by
  induction l with
  | nil => simp [sortDesc]
  | cons b l ih =>
    simp only [sortDesc, List.foldr_cons] at ih ⊢
    rw [filter_insertDesc, List.filter_cons, List.filter_cons, ih]

/-! ## ai_agent.py — ExecutionGate (`execute`) and the cycle (`run_cycle`) -/

/-- The result dict of `execute` (its `total_actions` entry is the length
of the input and is not repeated here). -/
structure ExecResult where
  executed : List AgentAction
  pending : List AgentAction
deriving DecidableEq

/-- The gate condition of `execute`:
`action.auto_executed or (self.autonomous_mode and not action.requires_approval)`. -/
def autoGate (mode : Bool) (a : AgentAction) : Bool :=
  a.auto_executed || (mode && !a.requires_approval)

/-- The mutation `execute` applies to an auto-executed action. -/
def markExecuted (a : AgentAction) : AgentAction :=
  { a with auto_executed := true, outcome := some "Executed automatically" }

/-- Method `execute`: the loop splitting planned actions into executed (mutated by
`markExecuted`) and pending, each list in input order.  The appends to
`self.actions_taken`, `self.pending_actions` and `AGENT_LOG` accumulate
these same lists into the session state and are modelled separately
(`AgentState` below holds them for the approval queue). -/
def execute (mode : Bool) : List AgentAction → ExecResult
  | [] => { executed := [], pending := [] }
  | a :: rest =>
    let r := execute mode rest
    if autoGate mode a then
      { executed := markExecuted a :: r.executed, pending := r.pending }
    else
      { executed := r.executed, pending := a :: r.pending }

/-- The cycle result of `run_cycle` (the reasoning-chain trace is
display-only and outside the embedding). -/
structure CycleResult where
  situation : Situation
  issues : List Issue
  actions : ExecResult
deriving DecidableEq

/-- Method `run_cycle`: perceive → reason → plan → execute; fails (`none`) exactly
when `perceive` does, i.e. on the empty series, before any snapshot
exists. -/
def run_cycle (df : List AgentRecord) (mode : Bool) : Option CycleResult :=
  (perceive df).map fun s =>
    let issues := reason s
    let actions := plan mode issues
    { situation := s, issues := issues, actions := execute mode actions }

/-! ## ai_agent.py — ApprovalQueue (`approve_action`, `reject_action`) -/

/-- The session state that `approve_action`/`reject_action` touch:
`autonomous_mode`, the pending queue, the executed-action history and the
module-level `AGENT_LOG`. -/
structure AgentState where
  autonomous_mode : Bool := false
  pending_actions : List AgentAction := []
  actions_taken : List AgentAction := []
  log : List AuditEntry := []
deriving DecidableEq

/-- Method `approve_action(index)`: on `0 <= index < len(pending)` pop the action
at `index`, mark it approved, append it to the history and the log and
return `True`; otherwise return `False` with the state unchanged. -/
def approve_action (st : AgentState) (index : ℤ) : Bool × AgentState :=
  if h : 0 ≤ index ∧ index < (st.pending_actions.length : ℤ) then
    let a := st.pending_actions.get ⟨index.toNat, by omega⟩
    (true,
     { st with
        pending_actions := st.pending_actions.eraseIdx index.toNat
        actions_taken := st.actions_taken ++ [{ a with outcome := some "Approved and executed" }]
        log := st.log ++ [{ action := a.description, type_ := a.action_type.value,
                            auto := false, approved := some true }] })
  else (false, st)

/-- Method `reject_action(index)`: on a valid index pop the action, mark it
rejected, append a log entry and return `True`; otherwise `False`. -/
def reject_action (st : AgentState) (index : ℤ) : Bool × AgentState :=
  if h : 0 ≤ index ∧ index < (st.pending_actions.length : ℤ) then
    let a := st.pending_actions.get ⟨index.toNat, by omega⟩
    (true,
     { st with
        pending_actions := st.pending_actions.eraseIdx index.toNat
        log := st.log ++ [{ action := a.description, type_ := a.action_type.value,
                            auto := false, approved := some false }] })
  else (false, st)

/-! ## Shared lemmas about the execution gate and the planner output -/

lemma execute_executed_eq (mode : Bool) (l : List AgentAction) :
    (execute mode l).executed = (l.filter (autoGate mode)).map markExecuted := by
  induction l with
  | nil => simp [execute]
  | cons a rest ih =>
    by_cases h : autoGate mode a <;> simp [execute, List.filter_cons, h, ih]

lemma execute_pending_eq (mode : Bool) (l : List AgentAction) :
    (execute mode l).pending = l.filter (fun a => !(autoGate mode a)) := by
  induction l with
  | nil => simp [execute]
  | cons a rest ih =>
    by_cases h : autoGate mode a <;> simp [execute, List.filter_cons, h, ih]

lemma actionsFor_outcome_none (mode : Bool) (issue : Issue) :
    ∀ a ∈ actionsFor mode issue, a.outcome = none := by
  intro a ha
  unfold actionsFor at ha
  split_ifs at ha <;>
    simp only [List.mem_cons, List.not_mem_nil, or_false] at ha <;>
    first
      | (rcases ha with rfl | rfl <;> rfl)
      | (rcases ha with rfl; rfl)
      | cases ha

lemma plan_outcome_none (mode : Bool) (issues : List Issue) :
    ∀ a ∈ plan mode issues, a.outcome = none := by
  intro a ha
  rw [plan, mem_sortDesc] at ha
  simp only [planActions, List.mem_flatMap] at ha
  obtain ⟨issue, _, hmem⟩ := ha
  exact actionsFor_outcome_none mode issue a hmem

/-! ## Claim theorems (C2, C6, C9, C10) -/

/-- C2: for every planned action list and every autonomous-mode setting,
`execute` moves to the executed list exactly the actions satisfying
`auto_executed || (mode && !requires_approval)` (in order, mutated by
`markExecuted`), and every other action enters the pending list: the gate
condition holds for an input action if and only if it is executed rather
than queued. -/
theorem execute_gate_iff (mode : Bool) (actions : List AgentAction) :
    (execute mode actions).executed = (actions.filter (autoGate mode)).map markExecuted ∧
    (execute mode actions).pending = actions.filter (fun a => !(autoGate mode a)) :=
  ⟨execute_executed_eq mode actions, execute_pending_eq mode actions⟩

/-- C6: for every issue list and mode, the planner output is sorted by
priority descending, and for every priority the equal-priority actions
appear exactly as in the unsorted, issue-detection-ordered list
`planActions` (stability). -/
theorem plan_sorted_stable (mode : Bool) (issues : List Issue) :
    (plan mode issues).Pairwise (fun a b => b.priority ≤ a.priority) ∧
    ∀ p : ℕ, (plan mode issues).filter (fun a => a.priority == p) =
      (planActions mode issues).filter (fun a => a.priority == p) :=
  ⟨pairwise_sortDesc _, fun p => filter_sortDesc p _⟩

/-- C9: in every cycle (the action phase of `run_cycle` is
`execute mode (plan mode issues)`), every action of the executed list ends
with `auto_executed = true` and outcome "Executed automatically" — whatever
its template's original flags — and every pending action keeps its outcome
unset (`none`). -/
theorem executed_actions_marked (mode : Bool) (issues : List Issue) :
    (∀ a ∈ (execute mode (plan mode issues)).executed,
        a.auto_executed = true ∧ a.outcome = some "Executed automatically") ∧
    (∀ a ∈ (execute mode (plan mode issues)).pending, a.outcome = none) := by
  constructor
  · intro a ha
    rw [execute_executed_eq, List.mem_map] at ha
    obtain ⟨b, _, rfl⟩ := ha
    exact ⟨rfl, rfl⟩
  · intro a ha
    rw [execute_pending_eq, List.mem_filter] at ha
    rw [plan] at ha
    exact plan_outcome_none mode issues a (by rw [plan]; exact ha.1)

/-- The issue instantiating C9's theorem: a bed-capacity warning. -/
def c9Issue : Issue :=
  { type_ := "capacity_warning", resource := "beds", severity := .warning,
    value := 85, message := "WARNING: Bed occupancy at 85% - prepare contingency" }

/-- The mode-gated discharge-review action (created with
`auto_executed = false`) after the gate executed it in autonomous mode. -/
def c9Act : AgentAction :=
  { action_type := .resource_request,
    description := "Request discharge planning review for eligible patients",
    priority := 3, auto_executed := true, requires_approval := false,
    details := [("target", .s "case_management")],
    outcome := some "Executed automatically" }

/-- Witness for C9: in autonomous mode a mode-gated action (template flag
`auto_executed = false`) ends in the executed list marked executed. -/
theorem executed_actions_marked_witness :
    c9Act.auto_executed = true ∧ c9Act.outcome = some "Executed automatically" :=
  (executed_actions_marked true [c9Issue]).1 c9Act (by decide)

/-- C10: `run_cycle` produces a cycle result exactly for non-empty record
series; on the empty series its first step (`df.iloc[-1]` in `perceive`)
fails before any snapshot is produced. -/
theorem run_cycle_total_iff (df : List AgentRecord) (mode : Bool) :
    (run_cycle df mode).isSome ↔ df ≠ [] := by
  have h : (perceive df).isSome ↔ df ≠ [] := by
    cases h : df.getLast? with
    | none => simp [perceive, h, List.getLast?_eq_none_iff.mp h]
    | some r =>
      have hne : df ≠ [] := by
        intro e
        subst e
        simp at h
      simp [perceive, h, hne]
  simpa [run_cycle] using h

/-- Witness for C10: the cycle fails on the empty series. -/
theorem run_cycle_total_iff_witness : ¬ (run_cycle ([] : List AgentRecord) true).isSome := by
  simp [run_cycle_total_iff]

/-! ## C7 — trend deltas -/

lemma ilocFromEnd_append (ys zs : List AgentRecord) (k : ℕ) (h2 : k ≤ zs.length)
    (f : AgentRecord → ℚ) :
    ilocFromEnd (ys ++ zs) k f = ilocFromEnd zs k f := by
  unfold ilocFromEnd
  have hidx : (ys ++ zs).length - k = ys.length + (zs.length - k) := by
    simp only [List.length_append]
    omega
  rw [hidx, List.get?_append_right (by omega),
    show ys.length + (zs.length - k) - ys.length = zs.length - k from by omega]

/-- C7: each trend delta equals the last record's value minus the value of
the record it reaches back to (the previous record for the 1-day delta,
the third- and seventh-from-last records for the 3- and 7-day deltas, as
the code's `iloc[-3]`/`iloc[-7]` windows span N records inclusively), and
each delta defaults to 0, without error, whenever the series has fewer
records than its window needs. -/
theorem trend_deltas (df : List AgentRecord) :
    (∀ (ys : List AgentRecord) (a b : AgentRecord), df = ys ++ [a, b] →
      (calculateTrends df).bed_change_1d = pyInt (b.occupied_beds - a.occupied_beds)) ∧
    (∀ (ys : List AgentRecord) (a b c : AgentRecord), df = ys ++ [a, b, c] →
      (calculateTrends df).bed_change_3d = pyInt (c.occupied_beds - a.occupied_beds) ∧
      (calculateTrends df).icu_change_3d = pyInt (c.occupied_icu - a.occupied_icu) ∧
      (calculateTrends df).flu_change_3d = pyInt (c.flu_cases - a.flu_cases)) ∧
    (∀ (ys : List AgentRecord) (a1 a2 a3 a4 a5 a6 a7 : AgentRecord),
      df = ys ++ [a1, a2, a3, a4, a5, a6, a7] →
      (calculateTrends df).bed_change_7d = pyInt (a7.occupied_beds - a1.occupied_beds)) ∧
    (df.length < 2 → (calculateTrends df).bed_change_1d = 0) ∧
    (df.length < 3 →
      (calculateTrends df).bed_change_3d = 0 ∧
      (calculateTrends df).icu_change_3d = 0 ∧
      (calculateTrends df).flu_change_3d = 0) ∧
    (df.length < 7 → (calculateTrends df).bed_change_7d = 0) := by
  refine ⟨?_, ?_, ?_, ?_, ?_, ?_⟩
  · intro ys a b heq
    subst heq
    have hlen : 2 ≤ (ys ++ [a, b]).length := by simp
    simp only [calculateTrends, if_pos hlen]
    rw [ilocFromEnd_append ys [a, b] 1 (by simp), ilocFromEnd_append ys [a, b] 2 (by simp)]
    simp [ilocFromEnd]
  · intro ys a b c heq
    subst heq
    have hlen : 3 ≤ (ys ++ [a, b, c]).length := by simp
    refine ⟨?_, ?_, ?_⟩ <;>
      (simp only [calculateTrends, if_pos hlen]
       rw [ilocFromEnd_append ys [a, b, c] 1 (by simp), ilocFromEnd_append ys [a, b, c] 3 (by simp)]
       simp [ilocFromEnd])
  · intro ys a1 a2 a3 a4 a5 a6 a7 heq
    subst heq
    have hlen : 7 ≤ (ys ++ [a1, a2, a3, a4, a5, a6, a7]).length := by simp
    simp only [calculateTrends, if_pos hlen]
    rw [ilocFromEnd_append ys _ 1 (by simp), ilocFromEnd_append ys _ 7 (by simp)]
    simp [ilocFromEnd]
  · intro h
    simp only [calculateTrends, if_neg (by omega : ¬ 2 ≤ df.length)]
  · intro h
    refine ⟨?_, ?_, ?_⟩ <;> simp only [calculateTrends, if_neg (by omega : ¬ 3 ≤ df.length)]
  · intro h
    simp only [calculateTrends, if_neg (by omega : ¬ 7 ≤ df.length)]

/-- A daily record with the fields C7's witness varies. -/
def trendRec (occ icu flu : ℚ) : AgentRecord :=
  { total_beds := 100, occupied_beds := occ, total_icu_beds := 10, occupied_icu := icu,
    total_ventilators := 10, ventilators_used := 1, staff_on_duty := 30, flu_cases := flu }

/-- Witness for C7: the 1-day and 3-day deltas on concrete two- and
three-record series, and the default on a one-record series. -/
theorem trend_deltas_witness :
    (calculateTrends [trendRec 50 5 10, trendRec 60 6 12]).bed_change_1d =
      pyInt ((trendRec 60 6 12).occupied_beds - (trendRec 50 5 10).occupied_beds) ∧
    (calculateTrends [trendRec 50 5 10, trendRec 55 7 11, trendRec 62 6 20]).bed_change_3d =
      pyInt ((trendRec 62 6 20).occupied_beds - (trendRec 50 5 10).occupied_beds) ∧
    (calculateTrends [trendRec 50 5 10]).bed_change_1d = 0 :=
  ⟨(trend_deltas [trendRec 50 5 10, trendRec 60 6 12]).1 [] _ _ rfl,
   ((trend_deltas [trendRec 50 5 10, trendRec 55 7 11, trendRec 62 6 20]).2.1 [] _ _ _ rfl).1,
   (trend_deltas [trendRec 50 5 10]).2.2.2.1 (by decide)⟩

/-! ## C4 — the snapshot builder performs no validation -/

/-- A record whose `total_*` denominators are all zero and whose optional
environment fields are absent. -/
def zeroTotalsRec : AgentRecord :=
  { total_beds := 0, occupied_beds := 10, total_icu_beds := 0, occupied_icu := 2,
    total_ventilators := 0, ventilators_used := 1, staff_on_duty := 5, flu_cases := 0 }

/-- C4 counterexample: on a series whose latest record has zero
`total_beds`, `total_icu_beds` and `total_ventilators`, `perceive`
produces a snapshot (no DataError, no failure of any kind) — the ratios
are simply computed on the zero denominators (±inf/NaN under numpy, 0 in
this rational model; either way no error is raised). -/
theorem perceive_zero_totals_no_error : (perceive [zeroTotalsRec]).isSome = true := rfl

/-- C4 as the code has it: for every non-empty series `perceive` succeeds
whatever the `total_*` fields hold, missing `pollution`/`temperature` are
silently defaulted to 0/20 by `.get`, and the one clamped denominator is
`staff_ratio`'s `max(occupied_beds, 1)`. -/
theorem snapshot_no_validation (df : List AgentRecord) (r : AgentRecord)
    (h : df.getLast? = some r) :
    (perceive df).isSome = true ∧
    (perceive df).map (fun s => s.environment.pollution_aqi) = some (r.pollution.getD 0) ∧
    (perceive df).map (fun s => s.environment.temperature) = some (r.temperature.getD 20) ∧
    (perceive df).map (fun s => s.metrics.staff_ratio) =
      some (roundTo 3 (r.staff_on_duty / max r.occupied_beds 1)) := by
  simp [perceive, h]

/-- Witness for C4's amended statement at the zero-denominator record. -/
theorem snapshot_no_validation_witness :
    (perceive [zeroTotalsRec]).isSome = true ∧
    (perceive [zeroTotalsRec]).map (fun s => s.environment.pollution_aqi) =
      some (zeroTotalsRec.pollution.getD 0) ∧
    (perceive [zeroTotalsRec]).map (fun s => s.environment.temperature) =
      some (zeroTotalsRec.temperature.getD 20) ∧
    (perceive [zeroTotalsRec]).map (fun s => s.metrics.staff_ratio) =
      some (roundTo 3 (zeroTotalsRec.staff_on_duty / max zeroTotalsRec.occupied_beds 1)) :=
  snapshot_no_validation [zeroTotalsRec] zeroTotalsRec rfl

/-! ## C5 — critical supersedes warning for beds -/

/-- C5: every snapshot whose bed-occupancy metric is at least 90 yields
exactly one EMERGENCY issue for resource "beds" and no WARNING issue for
"beds" in the same cycle: the bed bands are mutually exclusive. -/
theorem bed_emergency_supersedes_warning (s : Situation)
    (h : (90 : ℚ) ≤ s.metrics.bed_occupancy) :
    ((reason s).countP (fun i => i.resource == "beds" && i.severity == AlertLevel.emergency)) = 1 ∧
    ((reason s).countP (fun i => i.resource == "beds" && i.severity == AlertLevel.warning)) = 0 := by
  have hcrit : bed_occupancy_critical ≤ s.metrics.bed_occupancy := by
    simpa [bed_occupancy_critical] using h
  simp only [reason, List.countP_append, if_pos hcrit]
  constructor <;>
    (split_ifs <;> simp [List.countP_cons, List.countP_nil] <;> rfl)

/-- A concrete snapshot with bed occupancy 95 and all other checks quiet. -/
def c5Situation : Situation :=
  { metrics := { bed_occupancy := 95, icu_occupancy := 50, ventilator_usage := 50,
                 staff_ratio := 0.5, total_beds := 200, occupied_beds := 190,
                 available_beds := 10, total_icu := 30, occupied_icu := 15,
                 available_icu := 15 },
    trends := { bed_change_1d := 0, bed_change_3d := 0, bed_change_7d := 0,
                icu_change_3d := 0, flu_change_3d := 0,
                direction := "stable", velocity := "slow" },
    environment := { pollution_aqi := 10, temperature := 20, flu_cases := 0 },
    risk_score := 0 }

/-- Witness for C5 at a snapshot with bed occupancy 95%. -/
theorem bed_emergency_supersedes_warning_witness :
    ((reason c5Situation).countP
        (fun i => i.resource == "beds" && i.severity == AlertLevel.emergency)) = 1 ∧
    ((reason c5Situation).countP
        (fun i => i.resource == "beds" && i.severity == AlertLevel.warning)) = 0 :=
  bed_emergency_supersedes_warning c5Situation (by norm_num [c5Situation])

/-! ## C8 — issue detection runs on the rounded metrics -/

/-- C8 as the code has it: the issue list of a cycle is exactly the one
obtained by rounding the four ratio metrics (bed/ICU/ventilator to one
decimal place, staff to three) and then applying the thresholds: `perceive`
stores only the rounded ratios, and `reason` compares those stored values. -/
theorem detection_on_rounded (df : List AgentRecord) :
    (perceive df).map reason =
      (situationUnrounded df).map (fun s => reason (roundSituation s)) := by
  cases h : df.getLast? with
  | none => simp [perceive, situationUnrounded, h]
  | some r => simp [perceive, situationUnrounded, roundSituation, h]

/-- A one-record series with unrounded bed occupancy 74.96%: rounding
lifts it to 75.0, across the warning threshold. -/
def c8df : List AgentRecord :=
  [{ total_beds := 10000, occupied_beds := 7496, total_icu_beds := 100, occupied_icu := 10,
     total_ventilators := 100, ventilators_used := 10, staff_on_duty := 2000, flu_cases := 0,
     pollution := some 0, temperature := some 20, risk_score := some 0 }]

/-- C8 counterexample: at bed occupancy 74.96% the pipeline emits one
issue (the stored metric is the rounded 75.0, which meets the warning
threshold) while the issue list computed from the unrounded ratios is
empty — so issue detection is not decided on full-precision values. -/
theorem detection_not_full_precision :
    ((perceive c8df).map (fun s => (reason s).length) = some 1) ∧
    ((situationUnrounded c8df).map (fun s => (reason s).length) = some 0) := by
  with_unfolding_all decide

/-! ## C3 — approve/reject on positional references -/

def pendAct1 : AgentAction :=
  { action_type := .staff_call, description := "Initiate emergency staff callback", priority := 4 }

def pendAct2 : AgentAction :=
  { action_type := .supply_order,
    description := "Request emergency ventilator allocation from regional pool", priority := 5 }

/-- A session with two pending actions. -/
def twoActionState : AgentState := { pending_actions := [pendAct1, pendAct2] }

/-- A session with one pending action. -/
def oneActionState : AgentState := { pending_actions := [pendAct1] }

/-- C3 counterexample: with two actions pending, `approve_action(0)`
succeeds and the subsequent `reject_action(0)` with the same positional
reference succeeds as well (it resolves the action that shifted into
index 0), contradicting the claim that the second call must fail. -/
theorem approve_then_reject_succeeds :
    (approve_action twoActionState 0).1 = true ∧
    (reject_action (approve_action twoActionState 0).2 0).1 = true := by
  decide

/-- C3 as the code has it: `approve_action`/`reject_action` succeed exactly
on an in-range index of the current pending queue (out-of-range references
return `False`, never raise); and after a successful `approve_action(i)`,
`reject_action(i)` with the same positional reference fails precisely when
`i` was the last valid index (in particular when the queue held a single
action) — otherwise it succeeds on a different action. -/
theorem approve_reject_positional (st : AgentState) (i : ℤ) :
    ((approve_action st i).1 = true ↔ 0 ≤ i ∧ i < (st.pending_actions.length : ℤ)) ∧
    ((reject_action st i).1 = true ↔ 0 ≤ i ∧ i < (st.pending_actions.length : ℤ)) ∧
    ((0 ≤ i ∧ i < (st.pending_actions.length : ℤ)) →
      ((reject_action (approve_action st i).2 i).1 = true ↔
        i < (st.pending_actions.length : ℤ) - 1)) := by
  refine ⟨?_, ?_, ?_⟩
  · unfold approve_action
    split_ifs with h <;> simp [h]
  · unfold reject_action
    split_ifs with h <;> simp [h]
  · intro h
    rw [approve_action, dif_pos h]
    have hlen : ((st.pending_actions.eraseIdx i.toNat).length : ℤ) =
        (st.pending_actions.length : ℤ) - 1 := by
      have := List.length_eraseIdx_add_one (l := st.pending_actions) (i := i.toNat) (by omega)
      omega
    unfold reject_action
    split_ifs with h2 <;> simp only [hlen] at h2 <;> simp <;> omega

/-- Witness for C3's amended statement: with a single pending action,
`approve_action(0)` succeeds and `reject_action(0)` then fails. -/
theorem approve_reject_positional_witness :
    (reject_action (approve_action oneActionState 0).2 0).1 = true ↔
      (0 : ℤ) < (oneActionState.pending_actions.length : ℤ) - 1 :=
  (approve_reject_positional oneActionState 0).2.2 (by decide)

end HospitAI
